import Mathlib

/-!
Shallow embedding of the `rproxy` reverse-proxy core
(`src/server/server.go`, package `rproxy`) and proofs about it.

The embedding mirrors the Go source structure for structure:

* `RProxy` / `NewRProxy`        — the configuration struct and constructor;
* `FS`                          — an oracle for the outcomes of the file
                                  operations (`ioutil.ReadFile`,
                                  `AppendCertsFromPEM`, `tls.LoadX509KeyPair`);
* `startTCP` / `startTLS` / `Start` — the listener setup and accept loop,
                                  modelled up to the dispatch of accepted
                                  connections to `serve`;
* `serve` / `serveTCP` / `serveTLS` — the per-connection path, modelled as the
                                  sequence of observable actions (file reads,
                                  backend dial, byte-copy loops, closes) each
                                  goroutine performs;
* `serveTCPDial` / `serveTLSDial` — the parameters of the backend dial call
                                  on each path;
* `startTLSServerConfig` / `serveTLSClientConfig` — the `tls.Config` values
                                  built by the Go code, with the fields the
                                  source sets.
-/

namespace RProxySpec

/-- The `RProxy` struct of the Go source: listen/backend protocol and
address plus the five credential file paths. -/
structure RProxy where
  listenProto : String
  listenAddr : String
  backendProto : String
  backendAddr : String
  rootCert : String
  serverCert : String
  serverKey : String
  clientCert : String
  clientKey : String
  deriving Repr, DecidableEq

/-- `strings.ToLower`, modelled character-wise; agrees with Go on the
ASCII strings used for protocol kinds and `host:port` addresses. -/
def toLowerStr (s : String) : String :=
  String.mk (s.data.map Char.toLower)

/-- `NewRProxy` from the source: stores the four protocol/address strings
lower-cased (`strings.ToLower`) and the five credential paths unchanged. -/
def NewRProxy (listenProto listenAddr backendProto backendAddr
    rootCert serverCert serverKey clientCert clientKey : String) : RProxy :=
  { listenProto := toLowerStr listenProto
    listenAddr := toLowerStr listenAddr
    backendProto := toLowerStr backendProto
    backendAddr := toLowerStr backendAddr
    rootCert := rootCert
    serverCert := serverCert
    serverKey := serverKey
    clientCert := clientCert
    clientKey := clientKey }

/-- Oracle for the file-system dependent operations of the source:
whether `ioutil.ReadFile path` succeeds, whether
`CertPool.AppendCertsFromPEM` of the bytes of `path` returns `ok`, and
whether `tls.LoadX509KeyPair cert key` succeeds. -/
structure FS where
  readFileOk : String → Bool
  parsePEMOk : String → Bool
  keyPairOk : String → String → Bool

/-- An `x509.CertPool` as built by the source: it is always populated from
exactly one root PEM file, identified here by its path. -/
structure CertPool where
  source : String
  deriving Repr, DecidableEq

/-- The `tls.ClientAuthType` values relevant to the source: the zero value
and `tls.RequireAndVerifyClientCert` (the one the source sets). -/
inductive ClientAuthType where
  | noClientCert
  | requireAndVerifyClientCert
  deriving Repr, DecidableEq

/-- The fields of Go's `tls.Config` that the source sets: `ClientCAs`,
`ClientAuth` and `Certificates` for the server role; `RootCAs`,
`ServerName` and `Certificates` for the client role.  `certificates`
records the `(certPath, keyPath)` pairs loaded into the config. -/
structure TLSConfig where
  clientCAs : Option CertPool := none
  clientAuth : ClientAuthType := ClientAuthType.noClientCert
  rootCAs : Option CertPool := none
  serverName : String := ""
  certificates : List (String × String) := []
  deriving Repr, DecidableEq

/-- The observable actions a `serve*` goroutine performs, in program order:
reading a PEM file, loading a key pair, dialing the backend, running one
`io.Copy` direction, and closing each connection. -/
inductive Action where
  | readRootFile (path : String)
  | loadKeyPair (cert key : String)
  | dialBackend
  | copyFrontToBack
  | copyBackToFront
  | closeFront
  | closeBack
  deriving Repr, DecidableEq

/-- How a `serve*` call ends: returning an error (dial failure), returning
`nil` after the relay, or aborting the whole process (`panic` /
`log.Fatalf`) with the given message. -/
inductive ServeResult where
  | err
  | ok
  | fatal (msg : String)
  deriving Repr, DecidableEq

/-- One run of `serveTCP`/`serveTLS` on a single accepted connection:
its result, the action trace of the calling goroutine (which runs the
back-to-front copy), and the action trace of the goroutine it spawns
(which runs the front-to-back copy; empty when none is spawned). -/
structure ServeRun where
  result : ServeResult
  main : List Action
  spawned : List Action
  deriving Repr, DecidableEq

/-- `serveTCP` (source lines 275–293): dial the backend with
`net.DialTimeout ("tcp", backendAddr, 30s)`; on dial error close the
front connection and return the error; otherwise spawn the front-to-back
copy goroutine and run the back-to-front copy, each goroutine closing
both connections when its copy returns.  `dialOk` is the outcome of the
dial. -/
def serveTCP (_rp : RProxy) (dialOk : Bool) : ServeRun :=
  if dialOk then
    { result := ServeResult.ok
      main := [Action.dialBackend, Action.copyBackToFront,
               Action.closeBack, Action.closeFront]
      spawned := [Action.copyFrontToBack, Action.closeBack, Action.closeFront] }
  else
    { result := ServeResult.err
      main := [Action.dialBackend, Action.closeFront]
      spawned := [] }

/-- The client-role `tls.Config` built inside `serveTLS` (source lines
312–316): `RootCAs` from `rootCert`, `ServerName` the literal
`"testapp-server"`, and the client certificate/key pair. -/
def serveTLSClientConfig (rp : RProxy) : TLSConfig :=
  { rootCAs := some { source := rp.rootCert }
    serverName := "testapp-server"
    certificates := [(rp.clientCert, rp.clientKey)] }

/-- `serveTLS` (source lines 295–334): re-read the root PEM
(`log.Fatalf` on read failure, `panic` on parse failure), reload the
client certificate/key pair (`panic` on failure), build the client
`tls.Config`, then `tls.Dial` the backend; on dial error close the front
connection and return the error; otherwise run the same two copy loops
as `serveTCP`, each closing both connections on exit. -/
def serveTLS (rp : RProxy) (fs : FS) (dialOk : Bool) : ServeRun :=
  if !fs.readFileOk rp.rootCert then
    { result := ServeResult.fatal "failed to load root certificate"
      main := [Action.readRootFile rp.rootCert]
      spawned := [] }
  else if !fs.parsePEMOk rp.rootCert then
    { result := ServeResult.fatal "failed to parse root certificate"
      main := [Action.readRootFile rp.rootCert]
      spawned := [] }
  else if !fs.keyPairOk rp.clientCert rp.clientKey then
    { result := ServeResult.fatal "failed to load client tls certificate"
      main := [Action.readRootFile rp.rootCert,
               Action.loadKeyPair rp.clientCert rp.clientKey]
      spawned := [] }
  else if dialOk then
    { result := ServeResult.ok
      main := [Action.readRootFile rp.rootCert,
               Action.loadKeyPair rp.clientCert rp.clientKey,
               Action.dialBackend, Action.copyBackToFront,
               Action.closeBack, Action.closeFront]
      spawned := [Action.copyFrontToBack, Action.closeBack, Action.closeFront] }
  else
    { result := ServeResult.err
      main := [Action.readRootFile rp.rootCert,
               Action.loadKeyPair rp.clientCert rp.clientKey,
               Action.dialBackend, Action.closeFront]
      spawned := [] }

/-- `serve` (source lines 202–212): dispatch on `backendProto`;
`"tcp"` and `"tls"` go to the corresponding handler, anything else is
`panic("backend protocol not supported")` — inside the per-connection
goroutine, after the connection was accepted. -/
def serve (rp : RProxy) (fs : FS) (dialOk : Bool) : ServeRun :=
  if rp.backendProto = "tcp" then serveTCP rp dialOk
  else if rp.backendProto = "tls" then serveTLS rp fs dialOk
  else
    { result := ServeResult.fatal "backend protocol not supported"
      main := []
      spawned := [] }

/-- The parameters of a backend dial call: network, address, the explicit
connection timeout in seconds if any, and the client TLS config if the
dial is encrypted. -/
structure DialCall where
  network : String
  addr : String
  timeoutSeconds : Option Nat
  tlsConfig : Option TLSConfig
  deriving Repr, DecidableEq

/-- The dial performed by `serveTCP` (source line 277):
`net.DialTimeout ("tcp", rp.backendAddr, 30*time.Second)`. -/
def serveTCPDial (rp : RProxy) : DialCall :=
  { network := "tcp"
    addr := rp.backendAddr
    timeoutSeconds := some 30
    tlsConfig := none }

/-- The dial performed by `serveTLS` (source line 318):
`tls.Dial ("tcp", rp.backendAddr, &config)`.  `tls.Dial` uses a zero
`net.Dialer`, which carries no timeout. -/
def serveTLSDial (rp : RProxy) : DialCall :=
  { network := "tcp"
    addr := rp.backendAddr
    timeoutSeconds := none
    tlsConfig := some (serveTLSClientConfig rp) }

/-- One turn of the accept loop in `startTCP`/`startTLS`: `Accept` either
returns an error or yields a connection, identified by a number. -/
inductive AcceptResult where
  | err
  | conn (id : Nat)
  deriving Repr, DecidableEq

/-- The accept loop of `startTCP`/`startTLS` (source lines 227–234 and
265–272), run over a finite schedule of `Accept` outcomes: an error is
logged (`log.Printf`) and the loop continues; a connection is handed to
`go rp.serve(conn)`.  Returns the ids of the connections dispatched to
`serve`. -/
def acceptLoop : List AcceptResult → List Nat
  | [] => []
  | AcceptResult.err :: rest => acceptLoop rest
  | AcceptResult.conn i :: rest => i :: acceptLoop rest

/-- How `Start` ends, over a finite schedule of accept outcomes: either a
fatal setup failure (`panic` / `log.Fatalf`) with the given message
before the accept loop, or the accept loop ran and dispatched the given
connection ids to `serve`. -/
inductive StartOutcome where
  | fatalSetup (msg : String)
  | ranLoop (served : List Nat)
  deriving Repr, DecidableEq

/-- `startTCP` (source lines 214–235): resolve the listen address
(`panic` on failure), bind the TCP listener (`panic` on failure), then
run the accept loop.  `resolveOk` and `bindOk` are the outcomes of the
two setup steps. -/
def startTCP (_rp : RProxy) (resolveOk bindOk : Bool)
    (events : List AcceptResult) : StartOutcome :=
  if !resolveOk then StartOutcome.fatalSetup "resolve"
  else if !bindOk then StartOutcome.fatalSetup "listen"
  else StartOutcome.ranLoop (acceptLoop events)

/-- The server-role `tls.Config` built by `startTLS` (source lines
253–257): `ClientCAs` from `rootCert`, `ClientAuth =
RequireAndVerifyClientCert`, and the server certificate/key pair. -/
def startTLSServerConfig (rp : RProxy) : TLSConfig :=
  { clientCAs := some { source := rp.rootCert }
    clientAuth := ClientAuthType.requireAndVerifyClientCert
    certificates := [(rp.serverCert, rp.serverKey)] }

/-- `startTLS` (source lines 237–273): read the root PEM (`panic` on read
or parse failure), load the server certificate/key pair (`log.Fatalf` on
failure), build the server `tls.Config`, bind the TLS listener (`panic`
on failure), then run the accept loop. -/
def startTLS (rp : RProxy) (fs : FS) (bindOk : Bool)
    (events : List AcceptResult) : StartOutcome :=
  if !fs.readFileOk rp.rootCert then
    StartOutcome.fatalSetup "failed to load root certificate"
  else if !fs.parsePEMOk rp.rootCert then
    StartOutcome.fatalSetup "failed to parse root certificate"
  else if !fs.keyPairOk rp.serverCert rp.serverKey then
    StartOutcome.fatalSetup "failed to load server tls certificate"
  else if !bindOk then StartOutcome.fatalSetup "listen"
  else StartOutcome.ranLoop (acceptLoop events)

/-- `Start` (source lines 191–200): dispatch on `listenProto`; `"tcp"`
and `"tls"` go to the corresponding listener, anything else is
`panic("listen protocol not supported")`. -/
def Start (rp : RProxy) (fs : FS) (resolveOk bindOk : Bool)
    (events : List AcceptResult) : StartOutcome :=
  if rp.listenProto = "tcp" then startTCP rp resolveOk bindOk events
  else if rp.listenProto = "tls" then startTLS rp fs bindOk events
  else StartOutcome.fatalSetup "listen protocol not supported"

/-- A client certificate as presented at handshake: the root its chain
terminates at and whether it is within its validity period. -/
structure PeerCert where
  issuerRoot : String
  expired : Bool
  deriving Repr, DecidableEq

/-- Chain verification against a cert pool: the chain must terminate at
the pool's root and be within its validity period. -/
def verifiesAgainst (pool : CertPool) (c : PeerCert) : Bool :=
  c.issuerRoot == pool.source && !c.expired

/-- Go `crypto/tls` server-handshake semantics for the `ClientAuth`
policies occurring in the source: with the zero policy no client
certificate is demanded; with `RequireAndVerifyClientCert` the handshake
fails unless the peer presents a certificate that verifies against
`ClientCAs`. -/
def handshakeAcceptsClient (config : TLSConfig) (peer : Option PeerCert) : Bool :=
  match config.clientAuth with
  | ClientAuthType.noClientCert => true
  | ClientAuthType.requireAndVerifyClientCert =>
    match peer, config.clientCAs with
    | some c, some pool => verifiesAgainst pool c
    | _, _ => false

/-- A file-system oracle on which every operation succeeds. -/
def fsAllOk : FS :=
  { readFileOk := fun _ => true
    parsePEMOk := fun _ => true
    keyPairOk := fun _ _ => true }

/-- A file-system oracle on which no key pair loads (and everything else
succeeds). -/
def fsBadKeyPairs : FS :=
  { readFileOk := fun _ => true
    parsePEMOk := fun _ => true
    keyPairOk := fun _ _ => false }

/-- A file-system oracle on which the root trust file is unreadable (and
everything else succeeds). -/
def fsBadRootRead : FS :=
  { readFileOk := fun _ => false
    parsePEMOk := fun _ => true
    keyPairOk := fun _ _ => true }

/-- A file-system oracle on which every file reads but no PEM parses
(and every key pair loads). -/
def fsBadRootParse : FS :=
  { readFileOk := fun _ => true
    parsePEMOk := fun _ => false
    keyPairOk := fun _ _ => true }

/-- A concrete configuration (plain listen side, encrypted backend side)
used to instantiate the general theorems. -/
def rpDemo : RProxy :=
  NewRProxy "tcp" "127.0.0.1:23000" "tls" "127.0.0.1:23002"
    "certs/root_cert.pem" "certs/server_cert.pem" "certs/server_key.pem"
    "certs/client_cert.pem" "certs/client_key.pem"

/-- `acceptLoop` distributes over concatenation of accept schedules. -/
theorem acceptLoop_append (xs ys : List AcceptResult) :
    acceptLoop (xs ++ ys) = acceptLoop xs ++ acceptLoop ys := by
  induction xs with
  | nil => rfl
  | cons a rest ih => cases a <;> simp [acceptLoop, ih]

/-- C1: in every `serveTCP`/`serveTLS` run, whichever goroutine trace
contains a copy loop (front-to-back or back-to-front) also closes both
the front and the backend connection before it returns, so neither
handle is leaked on any relay exit path. -/
theorem relay_exit_closes_both_connections (rp : RProxy) (fs : FS) (dialOk : Bool)
    (t : List Action)
    (ht : t = (serveTCP rp dialOk).main ∨ t = (serveTCP rp dialOk).spawned
        ∨ t = (serveTLS rp fs dialOk).main ∨ t = (serveTLS rp fs dialOk).spawned)
    (hc : Action.copyFrontToBack ∈ t ∨ Action.copyBackToFront ∈ t) :
    Action.closeFront ∈ t ∧ Action.closeBack ∈ t := by
  rcases ht with h | h | h | h <;> subst h <;> revert hc <;>
    simp only [serveTCP, serveTLS] <;> (repeat' split) <;> intro hc <;> simp_all

/-- Witness for C1: the back-to-front copy trace of a concrete `serveTCP`
run closes both connections. -/
theorem relay_exit_closes_both_connections_witness :
    Action.closeFront ∈ (serveTCP rpDemo true).main
    ∧ Action.closeBack ∈ (serveTCP rpDemo true).main :=
  relay_exit_closes_both_connections rpDemo fsAllOk true
    (serveTCP rpDemo true).main (Or.inl rfl) (Or.inr (by decide))

/-- C2: when the backend dial fails, both `serveTCP` and `serveTLS`
close the already-accepted front connection and return the error. -/
theorem dial_failure_closes_front (rp : RProxy) (fs : FS)
    (hread : fs.readFileOk rp.rootCert = true)
    (hparse : fs.parsePEMOk rp.rootCert = true)
    (hkey : fs.keyPairOk rp.clientCert rp.clientKey = true) :
    ((serveTCP rp false).result = ServeResult.err
      ∧ Action.closeFront ∈ (serveTCP rp false).main)
    ∧ ((serveTLS rp fs false).result = ServeResult.err
      ∧ Action.closeFront ∈ (serveTLS rp fs false).main) := by
  simp [serveTCP, serveTLS, hread, hparse, hkey]

/-- Witness for C2 at a concrete configuration. -/
theorem dial_failure_closes_front_witness :
    ((serveTCP rpDemo false).result = ServeResult.err
      ∧ Action.closeFront ∈ (serveTCP rpDemo false).main)
    ∧ ((serveTLS rpDemo fsAllOk false).result = ServeResult.err
      ∧ Action.closeFront ∈ (serveTLS rpDemo fsAllOk false).main) :=
  dial_failure_closes_front rpDemo fsAllOk rfl rfl rfl

/-- Counterexample to C3: with listen kind `"tcp"` and the unsupported
backend kind `"udp"`, `Start` does not fail before the accept loop — it
enters the loop and a connection is accepted and dispatched to `serve`
(the unsupported-backend panic only fires per connection, inside
`serve`). -/
theorem start_ignores_backend_proto_cex :
    (NewRProxy "tcp" "a" "udp" "b" "r" "s" "k" "c" "d").backendProto ≠ "tcp"
    ∧ (NewRProxy "tcp" "a" "udp" "b" "r" "s" "k" "c" "d").backendProto ≠ "tls"
    ∧ Start (NewRProxy "tcp" "a" "udp" "b" "r" "s" "k" "c" "d") fsAllOk true true
        [AcceptResult.conn 0] = StartOutcome.ranLoop [0]
    ∧ (serve (NewRProxy "tcp" "a" "udp" "b" "r" "s" "k" "c" "d") fsAllOk true).result
        = ServeResult.fatal "backend protocol not supported" := by decide

/-- C3 as amended: an unsupported listen kind makes `Start` panic before
the accept loop, while an unsupported backend kind is only detected
inside `serve`, per accepted connection, after the connection was
accepted. -/
theorem unsupported_proto_fatal_paths (rp : RProxy) (fs : FS)
    (resolveOk bindOk dialOk : Bool) (events : List AcceptResult) :
    (rp.listenProto ≠ "tcp" → rp.listenProto ≠ "tls" →
      Start rp fs resolveOk bindOk events
        = StartOutcome.fatalSetup "listen protocol not supported")
    ∧ (rp.backendProto ≠ "tcp" → rp.backendProto ≠ "tls" →
      (serve rp fs dialOk).result
        = ServeResult.fatal "backend protocol not supported") := by
  constructor <;> intro h1 h2 <;> simp [Start, serve, h1, h2]

/-- Witness for the amended C3 at concrete configurations. -/
theorem unsupported_proto_fatal_paths_witness :
    Start (NewRProxy "udp" "a" "tcp" "b" "r" "s" "k" "c" "d") fsAllOk true true []
      = StartOutcome.fatalSetup "listen protocol not supported"
    ∧ (serve (NewRProxy "tcp" "a" "udp" "b" "r" "s" "k" "c" "d") fsAllOk true).result
      = ServeResult.fatal "backend protocol not supported" :=
  ⟨(unsupported_proto_fatal_paths (NewRProxy "udp" "a" "tcp" "b" "r" "s" "k" "c" "d")
      fsAllOk true true true []).1 (by decide) (by decide),
   (unsupported_proto_fatal_paths (NewRProxy "tcp" "a" "udp" "b" "r" "s" "k" "c" "d")
      fsAllOk true true true []).2 (by decide) (by decide)⟩

/-- Counterexample to C4: `serveTLS` — the path run once per accepted
connection — re-reads the root trust file and reloads the client
certificate/key pair; the client TLS context is therefore re-derived for
each accepted connection, not derived once per process. -/
theorem trust_context_rebuilt_cex :
    Action.readRootFile "certs/root_cert.pem" ∈ (serveTLS rpDemo fsAllOk true).main
    ∧ Action.loadKeyPair "certs/client_cert.pem" "certs/client_key.pem"
        ∈ (serveTLS rpDemo fsAllOk true).main := by decide

/-- C4 as amended: on every accepted connection handled by `serveTLS`,
the root trust file is re-read, and whenever it loads and parses, the
client certificate/key pair is reloaded as well. -/
theorem serveTLS_rebuilds_client_context (rp : RProxy) (fs : FS) (dialOk : Bool) :
    Action.readRootFile rp.rootCert ∈ (serveTLS rp fs dialOk).main
    ∧ (fs.readFileOk rp.rootCert = true → fs.parsePEMOk rp.rootCert = true →
        Action.loadKeyPair rp.clientCert rp.clientKey ∈ (serveTLS rp fs dialOk).main) := by
  constructor
  · unfold serveTLS; (repeat' split) <;> simp
  · intro h1 h2
    unfold serveTLS
    simp only [h1, h2, Bool.not_true, Bool.false_eq_true, if_false]
    (repeat' split) <;> simp

/-- Witness for the amended C4 at a concrete configuration. -/
theorem serveTLS_rebuilds_client_context_witness :
    Action.readRootFile rpDemo.rootCert ∈ (serveTLS rpDemo fsAllOk true).main
    ∧ Action.loadKeyPair rpDemo.clientCert rpDemo.clientKey
        ∈ (serveTLS rpDemo fsAllOk true).main :=
  ⟨(serveTLS_rebuilds_client_context rpDemo fsAllOk true).1,
   (serveTLS_rebuilds_client_context rpDemo fsAllOk true).2 rfl rfl⟩

/-- Counterexample to C5: the encrypted backend dial (`tls.Dial`) is not
bounded by the 30-second timeout; only the plain dial
(`net.DialTimeout`) is. -/
theorem tls_dial_no_timeout_cex :
    (serveTCPDial rpDemo).timeoutSeconds = some 30
    ∧ (serveTLSDial rpDemo).timeoutSeconds ≠ some 30
    ∧ (serveTLSDial rpDemo).timeoutSeconds = none := by decide

/-- C5 as amended: the plain backend dial carries an explicit 30-second
timeout; the encrypted backend dial carries no explicit timeout at
all. -/
theorem backend_dial_timeouts (rp : RProxy) :
    (serveTCPDial rp).timeoutSeconds = some 30
    ∧ (serveTLSDial rp).timeoutSeconds = none :=
  ⟨rfl, rfl⟩

/-- C6: the server config built by `startTLS` demands and verifies a
client certificate (`RequireAndVerifyClientCert` against the configured
root pool), so at handshake a peer presenting no certificate, or one
whose chain does not terminate at the configured root, is rejected and
no encrypted session (hence no relayed byte) is ever established for
it. -/
theorem mutual_auth_enforced (rp : RProxy) :
    (startTLSServerConfig rp).clientAuth = ClientAuthType.requireAndVerifyClientCert
    ∧ handshakeAcceptsClient (startTLSServerConfig rp) none = false
    ∧ ∀ c : PeerCert, c.issuerRoot ≠ rp.rootCert →
        handshakeAcceptsClient (startTLSServerConfig rp) (some c) = false := by
  refine ⟨rfl, rfl, fun c hc => ?_⟩
  simp [handshakeAcceptsClient, startTLSServerConfig, verifiesAgainst, hc]

/-- Witness for C6: at a concrete configuration, a certificate-less peer
and a peer with a chain to a different root both fail the handshake. -/
theorem mutual_auth_enforced_witness :
    (startTLSServerConfig rpDemo).clientAuth = ClientAuthType.requireAndVerifyClientCert
    ∧ handshakeAcceptsClient (startTLSServerConfig rpDemo) none = false
    ∧ handshakeAcceptsClient (startTLSServerConfig rpDemo)
        (some { issuerRoot := "certs/other_root.pem", expired := false }) = false :=
  ⟨(mutual_auth_enforced rpDemo).1, (mutual_auth_enforced rpDemo).2.1,
   (mutual_auth_enforced rpDemo).2.2
      { issuerRoot := "certs/other_root.pem", expired := false } (by decide)⟩

/-- Counterexample to C7: with a plain listen side, an encrypted backend
side and an unloadable client certificate/key pair, `Start` does not
fail at startup — it enters the accept loop and accepts a connection;
the failure to build the client context only surfaces inside `serve`
for that accepted connection. -/
theorem client_trust_failure_not_at_startup_cex :
    rpDemo.backendProto = "tls"
    ∧ fsBadKeyPairs.keyPairOk rpDemo.clientCert rpDemo.clientKey = false
    ∧ Start rpDemo fsBadKeyPairs true true [AcceptResult.conn 0]
        = StartOutcome.ranLoop [0]
    ∧ (serve rpDemo fsBadKeyPairs true).result
        = ServeResult.fatal "failed to load client tls certificate" := by decide

/-- C7 as amended: with a plain listen side and an encrypted backend
side, no failure mode of building the client trust material — an
unreadable root trust file, an unparseable root trust file, or an
unloadable client certificate/key pair — is raised at startup: `Start`
runs the accept loop regardless of the file system, and each of the
three modes is instead detected inside `serveTLS` while handling an
accepted connection, where it aborts the process with the corresponding
message. -/
theorem client_trust_failure_per_connection (rp : RProxy) (fs : FS) (dialOk : Bool)
    (events : List AcceptResult)
    (hlp : rp.listenProto = "tcp")
    (hbp : rp.backendProto = "tls") :
    Start rp fs true true events = StartOutcome.ranLoop (acceptLoop events)
    ∧ (fs.readFileOk rp.rootCert = false →
        (serve rp fs dialOk).result
          = ServeResult.fatal "failed to load root certificate")
    ∧ (fs.readFileOk rp.rootCert = true → fs.parsePEMOk rp.rootCert = false →
        (serve rp fs dialOk).result
          = ServeResult.fatal "failed to parse root certificate")
    ∧ (fs.readFileOk rp.rootCert = true → fs.parsePEMOk rp.rootCert = true →
        fs.keyPairOk rp.clientCert rp.clientKey = false →
        (serve rp fs dialOk).result
          = ServeResult.fatal "failed to load client tls certificate") := by
  refine ⟨?_, ?_, ?_, ?_⟩
  · simp [Start, startTCP, hlp]
  · intro h1
    simp [serve, serveTLS, hbp, h1]
  · intro h1 h2
    simp [serve, serveTLS, hbp, h1, h2]
  · intro h1 h2 h3
    simp [serve, serveTLS, hbp, h1, h2, h3]

/-- Witness for the amended C7: at a concrete configuration, all three
failure modes leave `Start` running the accept loop and surface as the
corresponding per-connection fatal result inside `serve`. -/
theorem client_trust_failure_per_connection_witness :
    (Start rpDemo fsBadKeyPairs true true [AcceptResult.conn 7]
        = StartOutcome.ranLoop (acceptLoop [AcceptResult.conn 7])
      ∧ (serve rpDemo fsBadKeyPairs true).result
        = ServeResult.fatal "failed to load client tls certificate")
    ∧ (Start rpDemo fsBadRootRead true true [AcceptResult.conn 7]
        = StartOutcome.ranLoop (acceptLoop [AcceptResult.conn 7])
      ∧ (serve rpDemo fsBadRootRead true).result
        = ServeResult.fatal "failed to load root certificate")
    ∧ (Start rpDemo fsBadRootParse true true [AcceptResult.conn 7]
        = StartOutcome.ranLoop (acceptLoop [AcceptResult.conn 7])
      ∧ (serve rpDemo fsBadRootParse true).result
        = ServeResult.fatal "failed to parse root certificate") :=
  ⟨⟨(client_trust_failure_per_connection rpDemo fsBadKeyPairs true
        [AcceptResult.conn 7] (by decide) (by decide)).1,
    (client_trust_failure_per_connection rpDemo fsBadKeyPairs true
        [AcceptResult.conn 7] (by decide) (by decide)).2.2.2 rfl rfl rfl⟩,
   ⟨(client_trust_failure_per_connection rpDemo fsBadRootRead true
        [AcceptResult.conn 7] (by decide) (by decide)).1,
    (client_trust_failure_per_connection rpDemo fsBadRootRead true
        [AcceptResult.conn 7] (by decide) (by decide)).2.1 rfl⟩,
   ⟨(client_trust_failure_per_connection rpDemo fsBadRootParse true
        [AcceptResult.conn 7] (by decide) (by decide)).1,
    (client_trust_failure_per_connection rpDemo fsBadRootParse true
        [AcceptResult.conn 7] (by decide) (by decide)).2.2.1 rfl rfl⟩⟩

/-- C8: an `Accept` error is non-fatal in both listeners — the loop skips
it and still serves every connection of the rest of the schedule — while
a failure to bind the listen address is fatal before the loop. -/
theorem accept_errors_nonfatal (rp : RProxy) (fs : FS) (xs ys : List AcceptResult)
    (hread : fs.readFileOk rp.rootCert = true)
    (hparse : fs.parsePEMOk rp.rootCert = true)
    (hkey : fs.keyPairOk rp.serverCert rp.serverKey = true) :
    startTCP rp true true (xs ++ AcceptResult.err :: ys)
      = StartOutcome.ranLoop (acceptLoop xs ++ acceptLoop ys)
    ∧ startTLS rp fs true (xs ++ AcceptResult.err :: ys)
      = StartOutcome.ranLoop (acceptLoop xs ++ acceptLoop ys)
    ∧ startTCP rp true false ys = StartOutcome.fatalSetup "listen"
    ∧ startTLS rp fs false ys = StartOutcome.fatalSetup "listen" := by
  have happ : acceptLoop (xs ++ AcceptResult.err :: ys)
      = acceptLoop xs ++ acceptLoop ys := by
    rw [acceptLoop_append]; rfl
  refine ⟨?_, ?_, ?_, ?_⟩ <;>
    simp [startTCP, startTLS, hread, hparse, hkey, happ]

/-- Witness for C8: a concrete schedule with an accept error in the
middle still serves the connections on both sides of it. -/
theorem accept_errors_nonfatal_witness :
    startTCP rpDemo true true
        ([AcceptResult.conn 1] ++ AcceptResult.err :: [AcceptResult.conn 2])
      = StartOutcome.ranLoop (acceptLoop [AcceptResult.conn 1]
          ++ acceptLoop [AcceptResult.conn 2])
    ∧ startTLS rpDemo fsAllOk true
        ([AcceptResult.conn 1] ++ AcceptResult.err :: [AcceptResult.conn 2])
      = StartOutcome.ranLoop (acceptLoop [AcceptResult.conn 1]
          ++ acceptLoop [AcceptResult.conn 2])
    ∧ startTCP rpDemo true false [AcceptResult.conn 2]
        = StartOutcome.fatalSetup "listen"
    ∧ startTLS rpDemo fsAllOk false [AcceptResult.conn 2]
        = StartOutcome.fatalSetup "listen" :=
  accept_errors_nonfatal rpDemo fsAllOk
    [AcceptResult.conn 1] [AcceptResult.conn 2] rfl rfl rfl

/-- C9: the expected identity name used to verify the encrypted backend
is the literal `"testapp-server"` in every client config `serveTLS`
builds — in particular for every configuration produced by `NewRProxy`,
whose parameters do not include it. -/
theorem expected_backend_name_constant (rp : RProxy)
    (lp la bp ba rc sc sk cc ck : String) :
    (serveTLSClientConfig rp).serverName = "testapp-server"
    ∧ (serveTLSClientConfig (NewRProxy lp la bp ba rc sc sk cc ck)).serverName
        = "testapp-server" :=
  ⟨rfl, rfl⟩

/-- C10: `NewRProxy` lower-cases the two protocol strings and the two
addresses and stores the five credential paths unchanged, so the
dispatch in `Start` and `serve` accepts `"TCP"` and `"Tls"` as the
supported kinds. -/
theorem newRProxy_lowercases_protocols (lp la bp ba rc sc sk cc ck : String) :
    (NewRProxy lp la bp ba rc sc sk cc ck).listenProto = toLowerStr lp
    ∧ (NewRProxy lp la bp ba rc sc sk cc ck).listenAddr = toLowerStr la
    ∧ (NewRProxy lp la bp ba rc sc sk cc ck).backendProto = toLowerStr bp
    ∧ (NewRProxy lp la bp ba rc sc sk cc ck).backendAddr = toLowerStr ba
    ∧ (NewRProxy lp la bp ba rc sc sk cc ck).rootCert = rc
    ∧ (NewRProxy lp la bp ba rc sc sk cc ck).serverCert = sc
    ∧ (NewRProxy lp la bp ba rc sc sk cc ck).serverKey = sk
    ∧ (NewRProxy lp la bp ba rc sc sk cc ck).clientCert = cc
    ∧ (NewRProxy lp la bp ba rc sc sk cc ck).clientKey = ck
    ∧ Start (NewRProxy "TCP" la "Tls" ba rc sc sk cc ck) fsAllOk true true []
        = StartOutcome.ranLoop []
    ∧ (serve (NewRProxy "TCP" la "Tls" ba rc sc sk cc ck) fsAllOk true).result
        = ServeResult.ok := by
  have h1 : toLowerStr "TCP" = "tcp" := by decide
  have h2 : toLowerStr "Tls" = "tls" := by decide
  refine ⟨rfl, rfl, rfl, rfl, rfl, rfl, rfl, rfl, rfl, ?_, ?_⟩ <;>
    simp [Start, NewRProxy, startTCP, serve, serveTLS, h1, h2, acceptLoop, fsAllOk]

end RProxySpec
